import Mathlib

/-!
Shallow embedding of the python-wechaty plugin layer
(`src/wechaty/plugin.py`) and of the mention-text extraction contract.

The plugin manager keeps two insertion-ordered mappings (`OrderedDict`
for plugins, `dict` for statuses); both are modelled as association
lists over `String` keys.  Python exceptions are modelled explicitly:
`WechatyPluginError` raises in the source become `PyErr.wechatyPluginError`,
failed `assert isinstance` statements become `PyErr.assertionError`,
out-of-range list subscripts become `PyErr.indexError`, and missing dict
keys become `PyErr.keyError`.  Operations that may leave the manager
mutated before an exception return the state reached together with an
optional error, mirroring that a raised Python exception leaves the
object in whatever state the preceding statements produced.
-/

/-- Python runtime values that can appear as positional `emit_events`
arguments; each constructor corresponds to one of the `isinstance`
checks performed by the dispatcher. -/
inductive PyValue
  | message (id : Nat)
  | friendship (id : Nat)
  | contact (id : Nat)
  | roomInvitation (id : Nat)
  | room (id : Nat)
  | pylist (ids : List Nat)
  | pydatetime (t : Nat)
  | pystr (s : String)
  | pynone
  deriving DecidableEq, Repr

def PyValue.isMessage : PyValue → Bool
  | .message _ => true
  | _ => false

def PyValue.isFriendship : PyValue → Bool
  | .friendship _ => true
  | _ => false

def PyValue.isContact : PyValue → Bool
  | .contact _ => true
  | _ => false

def PyValue.isRoomInvitation : PyValue → Bool
  | .roomInvitation _ => true
  | _ => false

def PyValue.isRoom : PyValue → Bool
  | .room _ => true
  | _ => false

def PyValue.isList : PyValue → Bool
  | .pylist _ => true
  | _ => false

def PyValue.isDatetime : PyValue → Bool
  | .pydatetime _ => true
  | _ => false

def PyValue.isStr : PyValue → Bool
  | .pystr _ => true
  | _ => false

/-- Python exceptions observable from the embedded code. -/
inductive PyErr
  | wechatyPluginError (msg : String)
  | assertionError
  | indexError
  | keyError
  deriving DecidableEq, Repr

/-- `PluginStatus` enum from `plugin.py`. -/
inductive PluginStatus
  | Running
  | Stopped
  deriving DecidableEq, Repr

/-- A `WechatyPlugin` instance: its identity, the name of its concrete
class, and the optional explicitly configured `options.name`. -/
structure WechatyPlugin where
  instanceId : Nat
  className : String
  optionsName : Option String
  deriving DecidableEq, Repr

/-- The `name` property: the explicitly configured name, or, if unset,
the class name.  (The source caches the computed name back into
`options.name`; the cached value equals this resolution, so name lookups
are modelled purely.) -/
def WechatyPlugin.name (p : WechatyPlugin) : String :=
  p.optionsName.getD p.className

/-- Key membership test for an association list (`name in dict`). -/
def containsKey : List (String × α) → String → Bool
  | [], _ => false
  | (k, _) :: rest, key => if k = key then true else containsKey rest key

/-- Key lookup for an association list (`dict[name]` / `dict.get`). -/
def lookupKey : List (String × α) → String → Option α
  | [], _ => none
  | (k, v) :: rest, key => if k = key then some v else lookupKey rest key

/-- `dict[key] = v`: update in place when the key exists (keeping its
position), otherwise append at the end (insertion order). -/
def dictSet : List (String × α) → String → α → List (String × α)
  | [], key, v => [(key, v)]
  | (k, w) :: rest, key, v =>
    if k = key then (key, v) :: rest else (k, w) :: dictSet rest key v

/-- `dict.pop(key)`: remove the entry with the given key. -/
def dictPop : List (String × α) → String → List (String × α)
  | [], _ => []
  | (k, v) :: rest, key => if k = key then rest else (k, v) :: dictPop rest key

/-- The keys of an association list, in order. -/
def keysOf (l : List (String × α)) : List String :=
  l.map (fun kv => kv.1)

/-- The mutable state of a `WechatyPluginManager`: the insertion-ordered
`_plugins` map and the `_plugin_status` map. -/
structure WechatyPluginManager where
  plugins : List (String × WechatyPlugin)
  status : List (String × PluginStatus)
  deriving DecidableEq, Repr

/-- A freshly constructed manager: both maps empty. -/
def initManager : WechatyPluginManager := ⟨[], []⟩

/-- `add_plugin` on a plugin instance: a duplicate name is a logged
no-op; otherwise the plugin is stored and its status set to Running. -/
def add_plugin (st : WechatyPluginManager) (p : WechatyPlugin) :
    WechatyPluginManager × Option PyErr :=
  if containsKey st.plugins p.name then (st, none)
  else
    ({ plugins := dictSet st.plugins p.name p,
       status := dictSet st.status p.name PluginStatus.Running }, none)

/-- `add_plugin` on a locator string: both loader strategies return
`None`, so the call always raises `WechatyPluginError`. -/
def add_plugin_locator (st : WechatyPluginManager) (locator : String) :
    WechatyPluginManager × Option PyErr :=
  (st, some (PyErr.wechatyPluginError ("can\x22t load plugin " ++ locator)))

/-- `remove_plugin`: raises when the name is not registered; otherwise
pops the plugin and then its status.  (The second pop is a plain
`dict.pop`, which would raise `KeyError` if the status entry were
missing — at that point `_plugins` has already been mutated.) -/
def remove_plugin (st : WechatyPluginManager) (name : String) :
    WechatyPluginManager × Option PyErr :=
  if ¬ containsKey st.plugins name then
    (st, some (PyErr.wechatyPluginError ("plugin " ++ name ++ " not exist")))
  else
    let st1 : WechatyPluginManager := { st with plugins := dictPop st.plugins name }
    if containsKey st1.status name then
      ({ st1 with status := dictPop st1.status name }, none)
    else
      (st1, some PyErr.keyError)

/-- `_check_plugins`: raises only when the name is absent from both
maps. -/
def check_plugins (st : WechatyPluginManager) (name : String) : Option PyErr :=
  if ¬ containsKey st.plugins name ∧ ¬ containsKey st.status name then
    some (PyErr.wechatyPluginError ("plugins <" ++ name ++ "> not exist"))
  else none

/-- `stop_plugin`: check, read the current status (a `dict` subscript,
so `KeyError` when missing), then set it to Stopped. -/
def stop_plugin (st : WechatyPluginManager) (name : String) :
    WechatyPluginManager × Option PyErr :=
  match check_plugins st name with
  | some e => (st, some e)
  | none =>
    match lookupKey st.status name with
    | none => (st, some PyErr.keyError)
    | some _ =>
      ({ st with status := dictSet st.status name PluginStatus.Stopped }, none)

/-- `start_plugin`: check, then set the status to Running. -/
def start_plugin (st : WechatyPluginManager) (name : String) :
    WechatyPluginManager × Option PyErr :=
  match check_plugins st name with
  | some e => (st, some e)
  | none =>
    ({ st with status := dictSet st.status name PluginStatus.Running }, none)

/-- `plugin_status`: check, then return `_plugin_status[name]`. -/
def plugin_status (st : WechatyPluginManager) (name : String) :
    Except PyErr PluginStatus :=
  match check_plugins st name with
  | some e => Except.error e
  | none =>
    match lookupKey st.status name with
    | none => Except.error PyErr.keyError
    | some v => Except.ok v

/-- One typed handler call as dispatched by `emit_events`, carrying the
validated positional arguments. -/
inductive HandlerCall
  | onMessage (m : PyValue)
  | onFriendship (f : PyValue)
  | onLogin (c : PyValue)
  | onRoomInvite (r : PyValue)
  | onRoomJoin (room invitees inviter date : PyValue)
  | onRoomLeave (room leavers remover date : PyValue)
  | onRoomTopic (room newTopic oldTopic changer date : PyValue)
  | onScan (qr status data : PyValue)
  deriving DecidableEq, Repr

/-- One observed handler invocation: which plugin instance was called
and with which handler call. -/
structure PluginInvocation where
  plugin : WechatyPlugin
  call : HandlerCall
  deriving DecidableEq, Repr

/-- The fan-out loop shared by every `emit_events` branch: iterate the
plugins in insertion order, query `plugin_status`, and invoke the
handler on each Running plugin.  An exception from the status query
aborts the remaining fan-out. -/
def dispatchGo (st : WechatyPluginManager) (call : HandlerCall) :
    List (String × WechatyPlugin) → List PluginInvocation × Option PyErr
  | [] => ([], none)
  | (pname, p) :: rest =>
    match plugin_status st pname with
    | Except.error e => ([], some e)
    | Except.ok s =>
      if s = PluginStatus.Running then
        ((⟨p, call⟩ : PluginInvocation) :: (dispatchGo st call rest).1,
         (dispatchGo st call rest).2)
      else dispatchGo st call rest

/-- `emit_events`: validate the positional arguments against the branch
for `event_name`, then fan out to the plugins.  `kwargsHasMsg` records
whether the keyword arguments contain the key `msg` (only the
`message` branch inspects the keyword arguments).  Event names without
a branch — including `error`, `heartbeat` and `ready` — fall through
and return without doing anything.  The result is the ordered list of
handler invocations performed together with the exception raised, if
any. -/
def emit_events (st : WechatyPluginManager) (event_name : String)
    (args : List PyValue) (kwargsHasMsg : Bool) :
    List PluginInvocation × Option PyErr :=
  if event_name = "message" then
    if args = [] ∧ kwargsHasMsg = false then
      ([], some (PyErr.wechatyPluginError "the plugin args of message is invalid"))
    else
      match args with
      | [] => ([], some PyErr.indexError)
      | m :: _ =>
        if m.isMessage then dispatchGo st (HandlerCall.onMessage m) st.plugins
        else ([], some PyErr.assertionError)
  else if event_name = "friendship" then
    if args.length ≠ 1 then
      ([], some (PyErr.wechatyPluginError "the plugin args of friendship event is invalid"))
    else
      match args with
      | [] => ([], some PyErr.indexError)
      | f :: _ =>
        if f.isFriendship then dispatchGo st (HandlerCall.onFriendship f) st.plugins
        else ([], some PyErr.assertionError)
  else if event_name = "login" then
    if args.length ≠ 1 then
      ([], some (PyErr.wechatyPluginError "the plugin args of login event is invalid"))
    else
      match args with
      | [] => ([], some PyErr.indexError)
      | c :: _ =>
        if c.isContact then dispatchGo st (HandlerCall.onLogin c) st.plugins
        else ([], some PyErr.assertionError)
  else if event_name = "room-invite" then
    if args.length ≠ 1 then
      ([], some (PyErr.wechatyPluginError "the plugin args of room-invite event is invalid"))
    else
      match args with
      | [] => ([], some PyErr.indexError)
      | r :: _ =>
        if r.isRoomInvitation then dispatchGo st (HandlerCall.onRoomInvite r) st.plugins
        else ([], some PyErr.assertionError)
  else if event_name = "room-join" then
    if args.length ≠ 4 then
      ([], some (PyErr.wechatyPluginError "the plugin args of room-join is invalid"))
    else
      match args with
      | room :: invitees :: inviter :: date :: _ =>
        if room.isRoom then
          if invitees.isList then
            if inviter.isContact then
              if date.isDatetime then
                dispatchGo st (HandlerCall.onRoomJoin room invitees inviter date) st.plugins
              else ([], some PyErr.assertionError)
            else ([], some PyErr.assertionError)
          else ([], some PyErr.assertionError)
        else ([], some PyErr.assertionError)
      | _ => ([], some PyErr.indexError)
  else if event_name = "room-leave" then
    if args.length ≠ 4 then
      ([], some (PyErr.wechatyPluginError "the plugin args of room-join is invalid"))
    else
      match args with
      | room :: leavers :: remover :: date :: _ =>
        if room.isRoom then
          if leavers.isList then
            if remover.isContact then
              if date.isDatetime then
                dispatchGo st (HandlerCall.onRoomLeave room leavers remover date) st.plugins
              else ([], some PyErr.assertionError)
            else ([], some PyErr.assertionError)
          else ([], some PyErr.assertionError)
        else ([], some PyErr.assertionError)
      | _ => ([], some PyErr.indexError)
  else if event_name = "room-topic" then
    if args.length ≠ 5 then
      ([], some (PyErr.wechatyPluginError "the plugin args of room-topic is invalid"))
    else
      match args with
      | room :: newTopic :: oldTopic :: changer :: date :: _ =>
        if room.isRoom then
          if newTopic.isStr then
            if oldTopic.isStr then
              if changer.isContact then
                if date.isDatetime then
                  dispatchGo st
                    (HandlerCall.onRoomTopic room newTopic oldTopic changer date) st.plugins
                else ([], some PyErr.assertionError)
              else ([], some PyErr.assertionError)
            else ([], some PyErr.assertionError)
          else ([], some PyErr.assertionError)
        else ([], some PyErr.assertionError)
      | _ => ([], some PyErr.indexError)
  else if event_name = "scan" then
    -- the source guard is `not args or len(args) < 0 or len(args) > 3`;
    -- `len(args) < 0` is vacuous for Python lists and is dropped here
    if args = [] ∨ 3 < args.length then
      ([], some (PyErr.wechatyPluginError "the plugin args of scan is invalid"))
    else
      match args with
      | [] => ([], some PyErr.indexError)
      | qr :: rest1 =>
        if qr.isStr then
          match rest1 with
          | [] => ([], some PyErr.indexError)
          | status :: rest2 =>
            if status.isStr then
              match rest2 with
              | [] => ([], some PyErr.indexError)
              | data :: _ =>
                dispatchGo st (HandlerCall.onScan qr status data) st.plugins
            else ([], some PyErr.assertionError)
        else ([], some PyErr.assertionError)
  else ([], none)

/-- `active_plugins` as described by the spec: the dispatch-ordered
plugins whose status is Running. -/
def statusIsRunning (st : WechatyPluginManager) (name : String) : Bool :=
  match lookupKey st.status name with
  | some PluginStatus.Running => true
  | _ => false

def active_plugins (st : WechatyPluginManager) : List (String × WechatyPlugin) :=
  st.plugins.filter (fun kv => statusIsRunning st kv.1)

/-- The administrative registry operations, for reasoning about
arbitrary operation sequences. -/
inductive RegistryOp
  | add (p : WechatyPlugin)
  | remove (name : String)
  | start (name : String)
  | stop (name : String)
  | queryStatus (name : String)

/-- The manager state after one registry operation: the state the
operation leaves behind, whether or not it raised. -/
def applyOp (st : WechatyPluginManager) : RegistryOp → WechatyPluginManager
  | .add p => (add_plugin st p).1
  | .remove n => (remove_plugin st n).1
  | .start n => (start_plugin st n).1
  | .stop n => (stop_plugin st n).1
  | .queryStatus _ => st

/-- The lock-step invariant between the two registry maps: same keys in
the same order. -/
def LockStep (st : WechatyPluginManager) : Prop :=
  keysOf st.plugins = keysOf st.status

/-- Modelled from the spec: a `MemberDirectory` entry for one room
member — display name plus optional per-room alias.  The implementation
of `Message.mention_text` is not part of the sources here (only its
tests are), so the extractor below follows the spec of
MentionTextExtractor, section 4.3. -/
structure RoomMemberInfo where
  displayName : String
  roomAlias : Option String
  deriving DecidableEq, Repr

/-- Modelled from the spec: remove from the text every occurrence of the
mention token followed by a space (consuming that one space, so that a
removal does not leave a run of blanks) or standing at the end of the
text.  A token occurrence followed by any other character is not a
mention and is left in place. -/
def removeTokFuel (tok : List Char) : Nat → List Char → List Char
  | _, [] => []
  | 0, l => l
  | fuel + 1, c :: rest =>
    if (tok ++ [' ']).isPrefixOf (c :: rest) then
      removeTokFuel tok fuel (rest.drop tok.length)
    else if c :: rest = tok then []
    else c :: removeTokFuel tok fuel rest

/-- The scan over the text, started with enough fuel to consume the
whole text (each step discharges at least one character, so a fuel of
`l.length` always suffices and the fuel-exhausted branch is never
taken). -/
def removeTok (tok : List Char) (l : List Char) : List Char :=
  removeTokFuel tok l.length l

/-- Modelled from the spec: trim leading and trailing blanks after the
removals. -/
def trimChars (l : List Char) : List Char :=
  ((l.dropWhile (fun c => c = ' ')).reverse.dropWhile (fun c => c = ' ')).reverse

/-- Modelled from the spec: resolve a mentioned id to its canonical
mention token.  The room alias, when present, takes precedence over the
display name; an id absent from the directory resolves to no token. -/
def mentionToken (directory : List (String × RoomMemberInfo)) (mid : String) :
    Option (List Char) :=
  match lookupKey directory mid with
  | none => none
  | some m => some (("@" ++ m.roomAlias.getD m.displayName).toList)

/-- Modelled from the spec: the MentionTextExtractor.  With no
structural mentions the text is returned unchanged; otherwise each
mentioned id contributes the removal of its canonical token wherever it
textually occurs, and the result is trimmed. -/
def mention_text (text : String) (directory : List (String × RoomMemberInfo))
    (mentionedIds : List String) : String :=
  if mentionedIds = [] then text
  else
    String.mk (trimChars (mentionedIds.foldl (fun acc mid =>
      match mentionToken directory mid with
      | none => acc
      | some tok => removeTok tok acc) text.toList))

/-- The member directory used by the repository's mention tests. -/
def testDirectory : List (String × RoomMemberInfo) :=
  [("wechaty_user", ⟨"Wechaty User", none⟩),
   ("fake_user", ⟨"Fake User", some "Fake Alias"⟩),
   ("test_user", ⟨"Test User", none⟩)]

/-! ### Association-list lemmas -/

/-- Membership in a key list, mirroring `containsKey`. -/
def keyMem : List String → String → Bool
  | [], _ => false
  | s :: rest, key => if s = key then true else keyMem rest key

/-- Removal of the first occurrence from a key list, mirroring
`dictPop`. -/
def removeFirst : List String → String → List String
  | [], _ => []
  | s :: rest, key => if s = key then rest else s :: removeFirst rest key

theorem keysOf_nil : keysOf ([] : List (String × α)) = [] := rfl

theorem keysOf_cons (k : String) (v : α) (rest : List (String × α)) :
    keysOf ((k, v) :: rest) = k :: keysOf rest := rfl

theorem containsKey_eq_keyMem (l : List (String × α)) (k : String) :
    containsKey l k = keyMem (keysOf l) k := by
  induction l with
  | nil => rfl
  | cons kv rest ih =>
    obtain ⟨k1, v1⟩ := kv
    rw [keysOf_cons]
    unfold containsKey keyMem
    split <;> simp [ih]

theorem lookupKey_isSome (l : List (String × α)) (k : String) :
    (lookupKey l k).isSome = containsKey l k := by
  induction l with
  | nil => rfl
  | cons kv rest ih =>
    obtain ⟨k1, v1⟩ := kv
    unfold lookupKey containsKey
    split <;> simp [ih]

theorem containsKey_of_mem {l : List (String × α)} {kv : String × α}
    (h : kv ∈ l) : containsKey l kv.1 = true := by
  induction l with
  | nil => simp at h
  | cons kv1 rest ih =>
    obtain ⟨k1, v1⟩ := kv1
    unfold containsKey
    rcases List.mem_cons.mp h with h1 | h1
    · subst h1
      simp
    · split <;> simp [ih h1]

theorem dictSet_absent (l : List (String × α)) (k : String) (v : α)
    (h : containsKey l k = false) : dictSet l k v = l ++ [(k, v)] := by
  induction l with
  | nil => rfl
  | cons kv rest ih =>
    obtain ⟨k1, v1⟩ := kv
    unfold containsKey at h
    unfold dictSet
    split
    · rename_i heq
      rw [heq] at h
      simp at h
    · rename_i hne
      rw [if_neg hne] at h
      simp [ih h]

theorem keysOf_dictSet_present (l : List (String × α)) (k : String) (v : α)
    (h : containsKey l k = true) : keysOf (dictSet l k v) = keysOf l := by
  induction l with
  | nil => simp [containsKey] at h
  | cons kv rest ih =>
    obtain ⟨k1, v1⟩ := kv
    unfold containsKey at h
    unfold dictSet
    split
    · rename_i heq
      rw [keysOf_cons, keysOf_cons, heq]
    · rename_i hne
      rw [if_neg hne] at h
      rw [keysOf_cons, keysOf_cons, ih h]

theorem keysOf_dictSet_absent (l : List (String × α)) (k : String) (v : α)
    (h : containsKey l k = false) : keysOf (dictSet l k v) = keysOf l ++ [k] := by
  rw [dictSet_absent l k v h]
  unfold keysOf
  simp

theorem keysOf_dictPop (l : List (String × α)) (k : String) :
    keysOf (dictPop l k) = removeFirst (keysOf l) k := by
  induction l with
  | nil => rfl
  | cons kv rest ih =>
    obtain ⟨k1, v1⟩ := kv
    rw [keysOf_cons]
    unfold dictPop removeFirst
    split
    · rfl
    · rw [keysOf_cons, ih]

theorem lookupKey_dictSet_self (l : List (String × α)) (k : String) (v : α) :
    lookupKey (dictSet l k v) k = some v := by
  induction l with
  | nil => simp [dictSet, lookupKey]
  | cons kv rest ih =>
    obtain ⟨k1, v1⟩ := kv
    unfold dictSet
    split
    · simp [lookupKey]
    · rename_i hne
      unfold lookupKey
      rw [if_neg hne]
      exact ih

/-! ### Dispatch-loop and lifecycle lemmas -/

theorem plugin_status_ok (st : WechatyPluginManager) (k : String) (v : PluginStatus)
    (h1 : containsKey st.plugins k = true) (h2 : lookupKey st.status k = some v) :
    plugin_status st k = Except.ok v := by
  unfold plugin_status check_plugins
  rw [h1]
  simp [h2]

theorem dispatchGo_spec (st : WechatyPluginManager) (call : HandlerCall)
    (l : List (String × WechatyPlugin))
    (h : ∀ kv ∈ l, containsKey st.plugins kv.1 = true ∧
          (lookupKey st.status kv.1).isSome = true) :
    dispatchGo st call l =
      ((l.filter (fun kv => statusIsRunning st kv.1)).map
        (fun kv => (⟨kv.2, call⟩ : PluginInvocation)), none) := by
  induction l with
  | nil => simp [dispatchGo]
  | cons kv rest ih =>
    obtain ⟨k, p⟩ := kv
    have hk1 : containsKey st.plugins k = true := (h (k, p) (List.mem_cons_self _ _)).1
    have hk2 : (lookupKey st.status k).isSome = true := (h (k, p) (List.mem_cons_self _ _)).2
    have hrest := fun kv hm => h kv (List.mem_cons_of_mem _ hm)
    obtain ⟨v, hv⟩ := Option.isSome_iff_exists.mp hk2
    have hps := plugin_status_ok st k v hk1 hv
    unfold dispatchGo
    rw [hps, ih hrest]
    cases v with
    | Running =>
      have hr : statusIsRunning st k = true := by
        unfold statusIsRunning
        rw [hv]
      simp [List.filter_cons, hr]
    | Stopped =>
      have hr : statusIsRunning st k = false := by
        unfold statusIsRunning
        rw [hv]
      simp [List.filter_cons, hr]

theorem stop_preserves_plugins (st : WechatyPluginManager) (n : String) :
    (stop_plugin st n).1.plugins = st.plugins := by
  unfold stop_plugin
  cases check_plugins st n with
  | some e => rfl
  | none =>
    cases lookupKey st.status n with
    | none => rfl
    | some v => rfl

theorem start_plugin_of_registered (st : WechatyPluginManager) (n : String)
    (h : containsKey st.plugins n = true) :
    start_plugin st n =
      ({ st with status := dictSet st.status n PluginStatus.Running }, none) := by
  unfold start_plugin check_plugins
  rw [h]
  simp

theorem statusIsRunning_after_start (st : WechatyPluginManager) (n : String)
    (h : containsKey st.plugins n = true) :
    statusIsRunning (start_plugin st n).1 n = true := by
  rw [start_plugin_of_registered st n h]
  unfold statusIsRunning
  rw [lookupKey_dictSet_self]

/-! ### Lock-step invariant preservation -/

theorem lockstep_add (st : WechatyPluginManager) (p : WechatyPlugin)
    (h : LockStep st) : LockStep (add_plugin st p).1 := by
  unfold add_plugin
  cases hc : containsKey st.plugins p.name with
  | true => simpa using h
  | false =>
    have hcs : containsKey st.status p.name = false := by
      rw [containsKey_eq_keyMem] at hc ⊢
      unfold LockStep at h
      rw [← h]
      exact hc
    simp only [Bool.false_eq_true, if_false]
    unfold LockStep
    rw [keysOf_dictSet_absent _ _ _ hc, keysOf_dictSet_absent _ _ _ hcs]
    unfold LockStep at h
    rw [h]

theorem lockstep_remove (st : WechatyPluginManager) (n : String)
    (h : LockStep st) : LockStep (remove_plugin st n).1 := by
  unfold remove_plugin
  cases hc : containsKey st.plugins n with
  | false => simpa using h
  | true =>
    have hcs : containsKey st.status n = true := by
      rw [containsKey_eq_keyMem] at hc ⊢
      unfold LockStep at h
      rw [← h]
      exact hc
    simp only [hcs]
    simp only [Bool.not_true, Bool.false_eq_true, if_false, if_true]
    unfold LockStep at h ⊢
    simp only [not_true, if_false]
    rw [keysOf_dictPop, keysOf_dictPop, h]

theorem lockstep_stop (st : WechatyPluginManager) (n : String)
    (h : LockStep st) : LockStep (stop_plugin st n).1 := by
  unfold stop_plugin
  cases check_plugins st n with
  | some e => exact h
  | none =>
    cases hl : lookupKey st.status n with
    | none => exact h
    | some v =>
      have hcs : containsKey st.status n = true := by
        rw [← lookupKey_isSome, hl]
        rfl
      unfold LockStep at h ⊢
      rw [keysOf_dictSet_present _ _ _ hcs]
      exact h

theorem lockstep_start (st : WechatyPluginManager) (n : String)
    (h : LockStep st) : LockStep (start_plugin st n).1 := by
  unfold start_plugin
  cases hch : check_plugins st n with
  | some e => exact h
  | none =>
    have hcs : containsKey st.status n = true := by
      unfold check_plugins at hch
      by_cases hc : containsKey st.plugins n = true
      · rw [containsKey_eq_keyMem] at hc ⊢
        unfold LockStep at h
        rw [← h]
        exact hc
      · by_cases hs : containsKey st.status n = true
        · exact hs
        · rw [if_pos ⟨by simpa using hc, by simpa using hs⟩] at hch
          cases hch
    unfold LockStep at h ⊢
    rw [keysOf_dictSet_present _ _ _ hcs]
    exact h

theorem lockstep_applyOp (st : WechatyPluginManager) (op : RegistryOp)
    (h : LockStep st) : LockStep (applyOp st op) := by
  cases op with
  | add p => exact lockstep_add st p h
  | remove n => exact lockstep_remove st n h
  | start n => exact lockstep_start st n h
  | stop n => exact lockstep_stop st n h
  | queryStatus n => exact h

theorem lockstep_foldl (ops : List RegistryOp) (st : WechatyPluginManager)
    (h : LockStep st) : LockStep (ops.foldl applyOp st) := by
  induction ops generalizing st with
  | nil => exact h
  | cons op rest ih => exact ih _ (lockstep_applyOp st op h)

/-! ### Concrete fixtures used by counterexamples and witnesses -/

def pluginP : WechatyPlugin := ⟨1, "PluginP", none⟩

/-- A second instance carrying the same resolved name as `pluginP`. -/
def pluginDup : WechatyPlugin := ⟨2, "PluginP", none⟩

/-- A manager holding exactly one Running plugin. -/
def stOne : WechatyPluginManager :=
  ⟨[("PluginP", pluginP)], [("PluginP", PluginStatus.Running)]⟩

def pluginA : WechatyPlugin := ⟨10, "PluginA", none⟩

def pluginB : WechatyPlugin := ⟨11, "PluginB", none⟩

/-- A manager holding a Running plugin followed by a Stopped one. -/
def stTwo : WechatyPluginManager :=
  ⟨[("PluginA", pluginA), ("PluginB", pluginB)],
   [("PluginA", PluginStatus.Running), ("PluginB", PluginStatus.Stopped)]⟩

/-! ### Claim theorems -/

/-- C1 counterexample: with a Running plugin registered, emitting an
`error` event performs no handler invocation at all and raises nothing —
so `emit("error", payload)` does not follow the dispatch pattern of the
handled kinds and is exactly a silent no-op; the same shape refutes the
claimed dispatch for `heartbeat` and `ready`. -/
theorem emit_error_silently_dropped :
    statusIsRunning stOne "PluginP" = true
    ∧ active_plugins stOne = [("PluginP", pluginP)]
    ∧ emit_events stOne "error" [PyValue.pystr "boom"] false = ([], none)
    ∧ emit_events stOne "heartbeat" [PyValue.pystr "beat"] false = ([], none)
    ∧ emit_events stOne "ready" [PyValue.pystr "ready"] false = ([], none) := by
  refine ⟨rfl, rfl, rfl, rfl, rfl⟩

/-- C1 (amended): for the kinds `error`, `heartbeat` and `ready`,
`emit_events` has no dispatch branch: whatever the registry contents and
the arguments, the call invokes no plugin handler and raises no error —
a silent no-op, unlike the handled kinds. -/
theorem emit_unhandled_kinds_noop (st : WechatyPluginManager)
    (args : List PyValue) (kw : Bool) :
    emit_events st "error" args kw = ([], none)
    ∧ emit_events st "heartbeat" args kw = ([], none)
    ∧ emit_events st "ready" args kw = ([], none) := by
  refine ⟨rfl, rfl, rfl⟩

/-- C2: `emit("message")` with zero positional arguments raises the
arity contract violation, and `emit("message", x)` with a non-Message
argument raises the type contract violation (a failed `isinstance`
assertion); in both cases the invocation list is empty, i.e. the error
is raised before any plugin handler runs. -/
theorem emit_message_contract (st : WechatyPluginManager) (x : PyValue)
    (hx : x.isMessage = false) :
    emit_events st "message" [] false =
      ([], some (PyErr.wechatyPluginError "the plugin args of message is invalid"))
    ∧ emit_events st "message" [x] false = ([], some PyErr.assertionError) := by
  constructor
  · rfl
  · unfold emit_events
    simp [hx]

theorem emit_message_contract_witness :
    emit_events initManager "message" [] false =
      ([], some (PyErr.wechatyPluginError "the plugin args of message is invalid"))
    ∧ emit_events initManager "message" [PyValue.pystr "oops"] false =
      ([], some PyErr.assertionError) :=
  emit_message_contract initManager (PyValue.pystr "oops") rfl

/-- C3: on a registry with one Running plugin, a `scan` emit carrying
only the qr string and the status string is not accepted: the branch
reads `args[2]` unconditionally, so the call raises `IndexError` and no
plugin receives `on_scan`.  A zero-argument `scan` call — arity inside
the claimed [0,3] window — is likewise rejected by the `not args`
guard. -/
theorem emit_scan_missing_data_index_error :
    statusIsRunning stOne "PluginP" = true
    ∧ emit_events stOne "scan" [PyValue.pystr "qr-code", PyValue.pystr "scan-status"] false
        = ([], some PyErr.indexError)
    ∧ emit_events stOne "scan" [] false
        = ([], some (PyErr.wechatyPluginError "the plugin args of scan is invalid"))
    ∧ emit_events stOne "scan"
        [PyValue.pystr "qr-code", PyValue.pystr "scan-status", PyValue.pynone] false
        = ([⟨pluginP, HandlerCall.onScan (PyValue.pystr "qr-code")
              (PyValue.pystr "scan-status") PyValue.pynone⟩], none) := by
  refine ⟨rfl, rfl, rfl, rfl⟩

/-- C4: under the lock-step invariant, the fan-out loop of every emit
branch invokes exactly the Running plugins in registration order (the
`active_plugins` restriction of the insertion-ordered registry) — a
Stopped plugin is skipped, a Running one is always called; the message
branch hands its validated argument to that loop unchanged; and a
stop/start cycle on a registered plugin leaves the registration order
untouched while restoring Running status, so a restarted plugin keeps
its original dispatch position. -/
theorem emit_dispatch_order (st : WechatyPluginManager) (hInv : LockStep st)
    (call : HandlerCall) (n : String) (hn : containsKey st.plugins n = true) :
    dispatchGo st call st.plugins =
      ((active_plugins st).map (fun kv => (⟨kv.2, call⟩ : PluginInvocation)), none)
    ∧ (∀ m : PyValue, m.isMessage = true →
        emit_events st "message" [m] false =
          dispatchGo st (HandlerCall.onMessage m) st.plugins)
    ∧ (start_plugin (stop_plugin st n).1 n).1.plugins = st.plugins
    ∧ statusIsRunning (start_plugin (stop_plugin st n).1 n).1 n = true := by
  have hmem : ∀ kv ∈ st.plugins, containsKey st.plugins kv.1 = true ∧
      (lookupKey st.status kv.1).isSome = true := by
    intro kv hm
    refine ⟨containsKey_of_mem hm, ?_⟩
    rw [lookupKey_isSome, containsKey_eq_keyMem]
    unfold LockStep at hInv
    rw [← hInv, ← containsKey_eq_keyMem]
    exact containsKey_of_mem hm
  have hn1 : containsKey (stop_plugin st n).1.plugins n = true := by
    rw [stop_preserves_plugins]
    exact hn
  refine ⟨dispatchGo_spec st call st.plugins hmem, ?_, ?_, ?_⟩
  · intro m hm
    unfold emit_events
    simp [hm]
  · rw [start_plugin_of_registered _ _ hn1]
    exact stop_preserves_plugins st n
  · exact statusIsRunning_after_start _ n hn1

theorem emit_dispatch_order_witness :
    dispatchGo stTwo (HandlerCall.onLogin (PyValue.contact 3)) stTwo.plugins =
      ((active_plugins stTwo).map
        (fun kv => (⟨kv.2, HandlerCall.onLogin (PyValue.contact 3)⟩ : PluginInvocation)), none)
    ∧ (∀ m : PyValue, m.isMessage = true →
        emit_events stTwo "message" [m] false =
          dispatchGo stTwo (HandlerCall.onMessage m) stTwo.plugins)
    ∧ (start_plugin (stop_plugin stTwo "PluginA").1 "PluginA").1.plugins = stTwo.plugins
    ∧ statusIsRunning (start_plugin (stop_plugin stTwo "PluginA").1 "PluginA").1 "PluginA"
        = true :=
  emit_dispatch_order stTwo rfl (HandlerCall.onLogin (PyValue.contact 3)) "PluginA" rfl

/-- C5: registering a plugin whose name is already registered is a total
no-op — the manager state is returned unchanged (same registry, same
instances, same statuses) and no error is raised; a first registration
appends the plugin at the end of the dispatch order and sets its status
to Running. -/
theorem add_plugin_idempotent (st : WechatyPluginManager) (p : WechatyPlugin) :
    (containsKey st.plugins p.name = true → add_plugin st p = (st, none))
    ∧ (containsKey st.plugins p.name = false →
        add_plugin st p =
          ({ plugins := st.plugins ++ [(p.name, p)],
             status := dictSet st.status p.name PluginStatus.Running }, none)) := by
  constructor
  · intro h
    unfold add_plugin
    rw [h]
    simp
  · intro h
    unfold add_plugin
    rw [h]
    simp [dictSet_absent _ _ _ h]

theorem add_plugin_idempotent_witness :
    add_plugin stOne pluginDup = (stOne, none)
    ∧ add_plugin initManager pluginP =
        ({ plugins := initManager.plugins ++ [(pluginP.name, pluginP)],
           status := dictSet initManager.status pluginP.name PluginStatus.Running }, none) :=
  ⟨(add_plugin_idempotent stOne pluginDup).1 rfl,
   (add_plugin_idempotent initManager pluginP).2 rfl⟩

/-- C6: for a name absent from the registry, each of remove, stop,
start and status raises the plugin-not-found error (`WechatyPluginError`
with a descriptive message) and returns the manager state completely
unchanged. -/
theorem unregistered_name_operations_fail (st : WechatyPluginManager) (n : String)
    (hp : containsKey st.plugins n = false) (hs : containsKey st.status n = false) :
    remove_plugin st n =
      (st, some (PyErr.wechatyPluginError ("plugin " ++ n ++ " not exist")))
    ∧ stop_plugin st n =
      (st, some (PyErr.wechatyPluginError ("plugins <" ++ n ++ "> not exist")))
    ∧ start_plugin st n =
      (st, some (PyErr.wechatyPluginError ("plugins <" ++ n ++ "> not exist")))
    ∧ plugin_status st n =
      Except.error (PyErr.wechatyPluginError ("plugins <" ++ n ++ "> not exist")) := by
  have hch : check_plugins st n =
      some (PyErr.wechatyPluginError ("plugins <" ++ n ++ "> not exist")) := by
    unfold check_plugins
    rw [hp, hs]
    simp
  refine ⟨?_, ?_, ?_, ?_⟩
  · unfold remove_plugin
    rw [hp]
    simp
  · unfold stop_plugin
    rw [hch]
  · unfold start_plugin
    rw [hch]
  · unfold plugin_status
    rw [hch]

theorem unregistered_name_operations_fail_witness :
    remove_plugin stOne "Ghost" =
      (stOne, some (PyErr.wechatyPluginError ("plugin " ++ "Ghost" ++ " not exist")))
    ∧ stop_plugin stOne "Ghost" =
      (stOne, some (PyErr.wechatyPluginError ("plugins <" ++ "Ghost" ++ "> not exist")))
    ∧ start_plugin stOne "Ghost" =
      (stOne, some (PyErr.wechatyPluginError ("plugins <" ++ "Ghost" ++ "> not exist")))
    ∧ plugin_status stOne "Ghost" =
      Except.error (PyErr.wechatyPluginError ("plugins <" ++ "Ghost" ++ "> not exist")) :=
  unregistered_name_operations_fail stOne "Ghost" rfl rfl

/-- C7: in the test directory, fake_user carries the room alias
"Fake Alias", so its canonical mention token is the alias form — the
name-form token "@Fake User" is not eligible.  The alias token does not
occur in the text, so fake_user contributes no removal and no error,
while the literally matching "@Wechaty User" and "@Test User" tokens
are removed: the extraction yields "123123@Fake User beep". -/
theorem mention_text_alias_mismatch :
    mentionToken testDirectory "fake_user" = some ("@Fake Alias".toList)
    ∧ removeTok ("@Fake Alias".toList)
        "123123@Wechaty User @Test User @Fake User beep".toList
        = "123123@Wechaty User @Test User @Fake User beep".toList
    ∧ mention_text "123123@Wechaty User @Test User @Fake User beep" testDirectory
        ["wechaty_user", "test_user", "fake_user"] = "123123@Fake User beep" := by
  refine ⟨rfl, rfl, rfl⟩

/-- C8: with an empty `mentioned_ids` list the extractor returns the
text unchanged, whatever the text and the member directory — tokens
that merely look like member mentions are never touched. -/
theorem mention_text_empty_ids (text : String)
    (directory : List (String × RoomMemberInfo)) :
    mention_text text directory [] = text := by
  unfold mention_text
  simp

/-- C9: starting from a fresh manager, after any sequence of add /
remove / start / stop / status operations the name→plugin map and the
name→status map have identical key sequences — every registered plugin
has exactly one status entry and no status entry exists for an
unregistered name. -/
theorem registry_maps_lockstep (ops : List RegistryOp) :
    LockStep (ops.foldl applyOp initManager) :=
  lockstep_foldl ops initManager rfl

/-- C10: two distinct instances of the same concrete class with no
explicitly configured name resolve to the same default name (the class
name); after registering the first, registering the second is a silent
no-op — the registry still holds only the first instance, and a
subsequent message dispatch invokes only the first instance, so the
second receives no events. -/
theorem duplicate_default_name_shadowed (cn : String) (i j : Nat) (hij : i ≠ j) :
    WechatyPlugin.name ⟨i, cn, none⟩ = WechatyPlugin.name ⟨j, cn, none⟩
    ∧ add_plugin (add_plugin initManager ⟨i, cn, none⟩).1 ⟨j, cn, none⟩ =
        ((add_plugin initManager ⟨i, cn, none⟩).1, none)
    ∧ (⟨j, cn, none⟩ : WechatyPlugin) ∉
        ((add_plugin initManager ⟨i, cn, none⟩).1).plugins.map (fun kv => kv.2)
    ∧ emit_events (add_plugin initManager ⟨i, cn, none⟩).1 "message"
        [PyValue.message 0] false =
        ([⟨⟨i, cn, none⟩, HandlerCall.onMessage (PyValue.message 0)⟩], none) := by
  have hs1 : (add_plugin initManager ⟨i, cn, none⟩).1 =
      ⟨[(cn, ⟨i, cn, none⟩)], [(cn, PluginStatus.Running)]⟩ := rfl
  refine ⟨rfl, ?_, ?_, ?_⟩
  · rw [hs1]
    unfold add_plugin containsKey
    simp [WechatyPlugin.name]
  · rw [hs1]
    simp only [List.map_cons, List.map_nil, List.mem_singleton]
    intro hh
    rw [WechatyPlugin.mk.injEq] at hh
    exact hij hh.1.symm
  · rw [hs1]
    unfold emit_events
    simp [PyValue.isMessage, dispatchGo, plugin_status, check_plugins, containsKey,
      lookupKey]

theorem duplicate_default_name_shadowed_witness :
    WechatyPlugin.name ⟨0, "MyPlugin", none⟩ = WechatyPlugin.name ⟨1, "MyPlugin", none⟩
    ∧ add_plugin (add_plugin initManager ⟨0, "MyPlugin", none⟩).1 ⟨1, "MyPlugin", none⟩ =
        ((add_plugin initManager ⟨0, "MyPlugin", none⟩).1, none)
    ∧ (⟨1, "MyPlugin", none⟩ : WechatyPlugin) ∉
        ((add_plugin initManager ⟨0, "MyPlugin", none⟩).1).plugins.map (fun kv => kv.2)
    ∧ emit_events (add_plugin initManager ⟨0, "MyPlugin", none⟩).1 "message"
        [PyValue.message 0] false =
        ([⟨⟨0, "MyPlugin", none⟩, HandlerCall.onMessage (PyValue.message 0)⟩], none) :=
  duplicate_default_name_shadowed "MyPlugin" 0 1 (by decide)
